import Mathlib

/-!
Verification development for the clockie surface placement & control
controller (src/wayland.rs, src/config.rs, src/ipc.rs).

Shallow embedding conventions:
* Rust `i32` values are modelled as `Int`; the explicit casts the source
  performs (`as u32`, `u32::saturating_sub`, `as i32`) are modelled by the
  helper functions below.  Plain `i32` arithmetic is modelled as exact `Int`
  arithmetic (matching the debug-mode semantics in which overflow is a
  panic rather than a wrapped value).
* Rust `u32` values (window width/height) are modelled as `Nat`.
* `f64` pointer coordinates are modelled as `Int` pairs; on integer-valued
  coordinates the source's `as i32` truncation is the identity, which is
  the range exercised here.
* Wayland object handles (`WlOutput`) are modelled by a numeric `id`;
  `OutputState.outputs()` together with `OutputState.info` is modelled as a
  list of `Output` records (an output whose info is absent is simply not
  listed, matching the `else continue` in the source); `logical_position`
  and `logical_size` stay `Option`al exactly as in `OutputInfo`.
* Filesystem reads/writes performed by `config::load_config` and the
  `save_*_to_config` helpers are modelled by an oracle (`FsModel`) and an
  effect list (`ConfigWrite`).
* `renderer::compute_size` depends on font rasterisation metrics (an
  external collaborator per the design); it is passed as an opaque
  function parameter `computeSize : ClockConfig → Bool → Nat × Nat`.
-/

/-- `i32 as u32` (two's-complement reinterpretation). -/
def u32_of_i32 (x : Int) : Nat := (x % 4294967296).toNat

/-- `u32 as i32` (two's-complement reinterpretation of a value `< 2^32`). -/
def i32_of_u32 (n : Nat) : Int :=
  if n < 2147483648 then (n : Int) else (n : Int) - 4294967296

/-- Rust `i32::clamp(self, lo, hi)` for `lo ≤ hi`. -/
def rclamp (x lo hi : Int) : Int := min hi (max lo x)

/-- The `Anchor` bitflag set from the wlr-layer-shell protocol:
which of the four output edges the surface is pinned to. -/
structure Anchor where
  top : Bool
  bottom : Bool
  left : Bool
  right : Bool
deriving DecidableEq, Repr

/-- `src/wayland.rs` `format_anchor`: render an anchor set back to a
space-separated keyword string, in the order top, bottom, left, right. -/
def format_anchor (a : Anchor) : String :=
  String.intercalate " "
    ((if a.top then ["top"] else []) ++ (if a.bottom then ["bottom"] else []) ++
     (if a.left then ["left"] else []) ++ (if a.right then ["right"] else []))

/-- ASCII lower-casing of one character (the anchor keywords are ASCII, so
this coincides with Rust `str::to_lowercase` on the inputs that matter). -/
def ascii_lower (c : Char) : Char :=
  if 65 ≤ c.toNat ∧ c.toNat ≤ 90 then Char.ofNat (c.toNat + 32) else c

/-- ASCII lower-casing of a string. -/
def lower_string (s : String) : String := String.mk (s.data.map ascii_lower)

/-- One step of the anchor-string parsing loop in `run` /
`handle_command (ReloadConfig arm)`: match one lowercased keyword. -/
def anchor_add_part (a : Anchor) (part : String) : Anchor :=
  match lower_string part with
  | "top" => { a with top := true }
  | "bottom" => { a with bottom := true }
  | "left" => { a with left := true }
  | "right" => { a with right := true }
  | _ => a

/-- Rust `str::split_whitespace`: split into the maximal runs of
non-whitespace characters (no empty items). -/
def split_ws_aux : List Char → List Char → List String
  | [], acc => if acc.isEmpty then [] else [String.mk acc.reverse]
  | c :: cs, acc =>
    if c.isWhitespace then
      if acc.isEmpty then split_ws_aux cs []
      else String.mk acc.reverse :: split_ws_aux cs []
    else split_ws_aux cs (c :: acc)

/-- Rust `str::split_whitespace` on a string. -/
def split_whitespace (s : String) : List String := split_ws_aux s.toList []

/-- The anchor-string parsing loop: split on whitespace and accumulate
edges starting from the empty anchor set (unknown words are ignored). -/
def parse_anchor (s : String) : Anchor :=
  (split_whitespace s).foldl anchor_add_part ⟨false, false, false, false⟩

/-- `src/wayland.rs` `enum Direction` for adjacent-output lookup. -/
inductive Direction where
  | left
  | right
  | up
  | down
deriving DecidableEq, Repr

/-- A display output as known to `OutputState`: handle id, optional name,
optional logical position and logical size (matching `OutputInfo`). -/
structure Output where
  id : Nat
  name : Option String
  logical_position : Option (Int × Int)
  logical_size : Option (Int × Int)
deriving DecidableEq, Repr

/-- `src/config.rs` `FaceMode`. -/
inductive FaceMode where
  | digital
  | analogue
deriving DecidableEq, Repr

/-- `src/config.rs` `WindowConfig` (the fields the placement controller
reads and writes). -/
structure WindowConfig where
  layer : String
  anchor : String
  margin_top : Int
  margin_right : Int
  margin_bottom : Int
  margin_left : Int
  compact : Bool
  output : Option String
deriving DecidableEq, Repr

/-- `src/config.rs` `ClockSettings` (the fields the controller touches;
`font_size`/`diameter` belong to the rasterizer collaborator and feed the
opaque `computeSize` parameter). -/
structure ClockSettings where
  face : FaceMode
  font : String
deriving DecidableEq, Repr

/-- `src/config.rs` `ClockConfig` (placement-relevant projection). -/
structure ClockConfig where
  window : WindowConfig
  clock : ClockSettings
deriving DecidableEq, Repr

/-- `WindowConfig::default()`. -/
def default_window_config : WindowConfig :=
  { layer := "top", anchor := "top right", margin_top := 20, margin_right := 20
    margin_bottom := 0, margin_left := 0, compact := false, output := none }

/-- `ClockSettings::default()` (modelled fields). -/
def default_clock_settings : ClockSettings :=
  { face := FaceMode.digital, font := "monospace" }

/-- `ClockConfig::default()` (modelled fields). -/
def default_clock_config : ClockConfig :=
  { window := default_window_config, clock := default_clock_settings }

/-- wlr-layer-shell `Layer`. -/
inductive Layer where
  | background
  | bottom
  | top
  | overlay
deriving DecidableEq, Repr

/-- The layer-string match used in `run` and `recreate_surface`
(anything unrecognised falls back to `Layer::Top`). -/
def parse_layer (s : String) : Layer :=
  match s with
  | "background" => Layer.background
  | "bottom" => Layer.bottom
  | "top" => Layer.top
  | "overlay" => Layer.overlay
  | _ => Layer.top

/-- wlr-layer-shell `KeyboardInteractivity`. -/
inductive KbInteractivity where
  | none
  | exclusive
  | onDemand
deriving DecidableEq, Repr

/-- The committed settings of the live `LayerSurface`: which output it was
created on, plus layer, anchor, margins, size, exclusive zone and keyboard
interactivity, as driven by the `set_*` calls in the source. -/
structure SurfaceParams where
  output : Option Nat
  layer : Layer
  anchor : Anchor
  margin_top : Int
  margin_right : Int
  margin_bottom : Int
  margin_left : Int
  size : Nat × Nat
  exclusive_zone : Int
  keyboard_interactivity : KbInteractivity
deriving DecidableEq, Repr

/-- `LayerSurface::set_margin(top, right, bottom, left)`. -/
def SurfaceParams.set_margin (sp : SurfaceParams)
    (top right bottom left : Int) : SurfaceParams :=
  { sp with margin_top := top, margin_right := right
            margin_bottom := bottom, margin_left := left }

/-- A margins quadruple in the source's `(top, right, bottom, left)` order
(the `drag_margins` tuple and the `save_margins_to_config` argument order). -/
structure Margins where
  top : Int
  right : Int
  bottom : Int
  left : Int
deriving DecidableEq, Repr

/-- Filesystem side effects issued by the controller through
`config::save_margins_to_config`, `config::save_output_to_config`
and the missing-file branch of `config::load_config`. -/
inductive ConfigWrite where
  | saveMargins (top right bottom left : Int)
  | saveOutput (name : String)
  | writeDefaultConfig
deriving DecidableEq, Repr

/-- The `Clockie` application state (src/wayland.rs), restricted to the
fields the placement & control claims are about. -/
structure Clockie where
  config : ClockConfig
  width : Nat
  height : Nat
  current_output : Option Nat
  configured : Bool
  needs_redraw : Bool
  compact : Bool
  locked : Bool
  dragging : Bool
  drag_start : Int × Int
  drag_margins : Margins
  anchor : Anchor
  surface : SurfaceParams
deriving DecidableEq, Repr

/-- The current in-memory margins, in `(top, right, bottom, left)` order as
read off `self.config.window` at the persistence points in `pointer_frame`. -/
def current_margins (st : Clockie) : Margins :=
  { top := st.config.window.margin_top, right := st.config.window.margin_right
    bottom := st.config.window.margin_bottom, left := st.config.window.margin_left }

/-- `OutputState.info` on a handle: look the id up in the known-output list. -/
def output_info (outs : List Output) (id : Nat) : Option Output :=
  outs.find? (fun o => o.id == id)

/-- `Clockie::get_output_name`. -/
def get_output_name (outs : List Output) (st : Clockie) : Option String :=
  st.current_output.bind (fun id => (output_info outs id).bind (fun o => o.name))

/-- The adjacency predicate inside `Clockie::find_adjacent_output`, on the
unwrapped coordinates of the current output (`c*`) and a candidate (`o*`). -/
def adjacent_in (d : Direction) (cx cy cw ch ox oy ow oh : Int) : Bool :=
  match d with
  | Direction.right => decide (ox = cx + cw ∧ oy < cy + ch ∧ oy + oh > cy)
  | Direction.left => decide (ox + ow = cx ∧ oy < cy + ch ∧ oy + oh > cy)
  | Direction.down => decide (oy = cy + ch ∧ ox < cx + cw ∧ ox + ow > cx)
  | Direction.up => decide (oy + oh = cy ∧ ox < cx + cw ∧ ox + ow > cx)

/-- The tie-break distance inside `Clockie::find_adjacent_output`:
absolute cross-axis distance between centers (`i32` division by 2
truncates toward zero, hence `Int.tdiv`). -/
def cross_dist (d : Direction) (cx cy cw ch ox oy ow oh : Int) : Int :=
  match d with
  | Direction.right | Direction.left =>
    ((oy + Int.tdiv oh 2) - (cy + Int.tdiv ch 2)).natAbs
  | Direction.up | Direction.down =>
    ((ox + Int.tdiv ow 2) - (cx + Int.tdiv cw 2)).natAbs

/-- `Clockie::find_adjacent_output`: scan all known outputs, skip the
current one, keep the adjacent candidate with the strictly smallest
cross-axis center distance (first encountered wins ties). -/
def find_adjacent_output (outs : List Output) (current : Option Nat)
    (d : Direction) : Option Output :=
  match current with
  | Option.none => Option.none
  | Option.some cid =>
    match output_info outs cid with
    | Option.none => Option.none
    | Option.some cur =>
      let cp := cur.logical_position.getD (0, 0)
      let cs := cur.logical_size.getD (0, 0)
      let best := outs.foldl (fun best o =>
        if o.id == cid then best
        else
          let op := o.logical_position.getD (0, 0)
          let os := o.logical_size.getD (0, 0)
          if adjacent_in d cp.1 cp.2 cs.1 cs.2 op.1 op.2 os.1 os.2 then
            let dist := cross_dist d cp.1 cp.2 cs.1 cs.2 op.1 op.2 os.1 os.2
            match best with
            | Option.none => Option.some (o, dist)
            | Option.some (b, bd) =>
              if dist < bd then Option.some (o, dist) else Option.some (b, bd)
          else best) Option.none
      best.map Prod.fst

/-- `Clockie::find_output_by_name`. -/
def find_output_by_name (outs : List Output) (name : String) : Option Output :=
  outs.find? (fun o => o.name == Option.some name)

/-- `Clockie::find_output_cycle`. -/
def find_output_cycle (outs : List Output) (current : Option Nat)
    (forward : Bool) : Option Output :=
  if outs.length ≤ 1 then Option.none
  else
    let current_idx :=
      (current.bind (fun cid => outs.findIdx? (fun o => o.id == cid))).getD 0
    let next_idx :=
      if forward then (current_idx + 1) % outs.length
      else (current_idx + outs.length - 1) % outs.length
    outs.get? next_idx

/-- `Clockie::recreate_surface`: build a fresh layer surface on the target
output with the state's current layer, anchor, margins, size, a zero
exclusive zone and no keyboard interactivity; update `current_output` and
drop the configured flag pending the new configure handshake. -/
def recreate_surface (st : Clockie) (target : Option Output) : Clockie :=
  let new_surface : SurfaceParams :=
    { output := target.map (fun o => o.id)
      layer := parse_layer st.config.window.layer
      anchor := st.anchor
      margin_top := st.config.window.margin_top
      margin_right := st.config.window.margin_right
      margin_bottom := st.config.window.margin_bottom
      margin_left := st.config.window.margin_left
      size := (st.width, st.height)
      exclusive_zone := 0
      keyboard_interactivity := KbInteractivity.none }
  { st with surface := new_surface
            current_output := target.map (fun o => o.id)
            configured := false
            needs_redraw := true }

/-- `Clockie::clamp_margins`: for each axis with a single active anchor
edge, clamp that edge's margin to `[0, output_size − window_size]` (with
the source's `as u32` / `saturating_sub` / `as i32` cast chain); skipped
entirely when the output's logical size is unknown or has a zero component. -/
def clamp_margins (outs : List Output) (st : Clockie) : Clockie :=
  let sz := (st.current_output.bind (fun id =>
    (output_info outs id).bind (fun o => o.logical_size))).getD (0, 0)
  let out_w := sz.1
  let out_h := sz.2
  if out_w = 0 ∨ out_h = 0 then st
  else
    let w0 := st.config.window
    let w1 :=
      if st.anchor.left ∧ ¬st.anchor.right then
        let mx := i32_of_u32 ((u32_of_i32 out_w) - st.width)
        { w0 with margin_left := rclamp w0.margin_left 0 mx }
      else if st.anchor.right ∧ ¬st.anchor.left then
        let mx := i32_of_u32 ((u32_of_i32 out_w) - st.width)
        { w0 with margin_right := rclamp w0.margin_right 0 mx }
      else w0
    let w2 :=
      if st.anchor.top ∧ ¬st.anchor.bottom then
        let mx := i32_of_u32 ((u32_of_i32 out_h) - st.height)
        { w1 with margin_top := rclamp w1.margin_top 0 mx }
      else if st.anchor.bottom ∧ ¬st.anchor.top then
        let mx := i32_of_u32 ((u32_of_i32 out_h) - st.height)
        { w1 with margin_bottom := rclamp w1.margin_bottom 0 mx }
      else w1
    { st with config := { st.config with window := w2 } }

/-- `Clockie::update_size`: recompute the window size from content; if it
changed, apply it, clamp the margins and re-commit them; always flag a
redraw.  `computeSize` stands for `renderer::compute_size` (external
rasterizer metrics). -/
def update_size (outs : List Output)
    (computeSize : ClockConfig → Bool → Nat × Nat) (st : Clockie) : Clockie :=
  let nsz := computeSize st.config st.compact
  let st1 :=
    if nsz.1 ≠ st.width ∨ nsz.2 ≠ st.height then
      let sta := { st with width := nsz.1
                           height := nsz.2
                           surface := { st.surface with size := (nsz.1, nsz.2) } }
      let stb := clamp_margins outs sta
      let sp := stb.surface.set_margin stb.config.window.margin_top
        stb.config.window.margin_right stb.config.window.margin_bottom
        stb.config.window.margin_left
      { stb with surface := sp }
    else st
  { st1 with needs_redraw := true }

/-- Linux input code `BTN_LEFT`. -/
def BTN_LEFT : Nat := 0x110

/-- The pointer event kinds `Clockie::pointer_frame` reacts to (every
other kind falls into the source's catch-all `_ => {}` arm). -/
inductive PtrEvent where
  | press (button : Nat) (position : Int × Int)
  | motion (position : Int × Int)
  | release (button : Nat)
  | leave
deriving DecidableEq, Repr

/-- The direction-detection if-chain in the `Leave` arm of
`Clockie::pointer_frame`: first the four "dragged to 0 from a positive
press-time margin" tests in the order Left, Right, Up, Down, then the
four "already at 0" fallback tests in the same order. -/
def detect_direction (st : Clockie) : Option Direction :=
  let a := st.anchor
  let w := st.config.window
  let dm := st.drag_margins
  if a.left ∧ ¬a.right ∧ w.margin_left = 0 ∧ dm.left > 0 then
    Option.some Direction.left
  else if a.right ∧ ¬a.left ∧ w.margin_right = 0 ∧ dm.right > 0 then
    Option.some Direction.right
  else if a.top ∧ ¬a.bottom ∧ w.margin_top = 0 ∧ dm.top > 0 then
    Option.some Direction.up
  else if a.bottom ∧ ¬a.top ∧ w.margin_bottom = 0 ∧ dm.bottom > 0 then
    Option.some Direction.down
  else if a.left ∧ ¬a.right ∧ w.margin_left = 0 then
    Option.some Direction.left
  else if a.right ∧ ¬a.left ∧ w.margin_right = 0 then
    Option.some Direction.right
  else if a.top ∧ ¬a.bottom ∧ w.margin_top = 0 then
    Option.some Direction.up
  else if a.bottom ∧ ¬a.top ∧ w.margin_bottom = 0 then
    Option.some Direction.down
  else
    Option.none

/-- The per-direction migration block in the `Leave` arm: flip the anchor
on the crossed axis (`(anchor & !EDGE) | OPPOSITE`), write the resulting
anchor string back into the config, and zero both margins on that axis. -/
def apply_migration (st : Clockie) (d : Direction) : Clockie :=
  match d with
  | Direction.left =>
    let anchor := { st.anchor with left := false, right := true }
    let w := { st.config.window with anchor := format_anchor anchor
                                     margin_right := 0, margin_left := 0 }
    { st with anchor := anchor, config := { st.config with window := w } }
  | Direction.right =>
    let anchor := { st.anchor with right := false, left := true }
    let w := { st.config.window with anchor := format_anchor anchor
                                     margin_left := 0, margin_right := 0 }
    { st with anchor := anchor, config := { st.config with window := w } }
  | Direction.up =>
    let anchor := { st.anchor with top := false, bottom := true }
    let w := { st.config.window with anchor := format_anchor anchor
                                     margin_bottom := 0, margin_top := 0 }
    { st with anchor := anchor, config := { st.config with window := w } }
  | Direction.down =>
    let anchor := { st.anchor with bottom := false, top := true }
    let w := { st.config.window with anchor := format_anchor anchor
                                     margin_top := 0, margin_bottom := 0 }
    { st with anchor := anchor, config := { st.config with window := w } }

/-- The combined migration decision of the `Leave` arm: the detected
direction paired with the adjacent output found in it, if both exist. -/
def migration_target (outs : List Output) (st : Clockie) :
    Option (Direction × Output) :=
  match detect_direction st with
  | Option.some d =>
    (find_adjacent_output outs st.current_output d).map (fun t => (d, t))
  | Option.none => Option.none

/-- The `Leave` arm of `Clockie::pointer_frame` while dragging: end the
drag, migrate if a direction and an adjacent output were found, then
persist margins when `moved || current != drag_margins`, and on a move
also record and persist the new output's name. -/
def pointer_leave (outs : List Output) (st : Clockie) :
    Clockie × List ConfigWrite :=
  let st0 := { st with dragging := false }
  let mt := migration_target outs st0
  let st1 :=
    match mt with
    | Option.some (d, target) =>
      recreate_surface (apply_migration st0 d) (Option.some target)
    | Option.none => st0
  let moved := mt.isSome
  let cur := current_margins st1
  let marginFx :=
    if moved ∨ cur ≠ st0.drag_margins then
      [ConfigWrite.saveMargins cur.top cur.right cur.bottom cur.left]
    else []
  match moved, get_output_name outs st1 with
  | true, Option.some output_name =>
    let w := { st1.config.window with output := Option.some output_name }
    ({ st1 with config := { st1.config with window := w } },
      marginFx ++ [ConfigWrite.saveOutput output_name])
  | _, _ => (st1, marginFx)

/-- One pointer event through the match in `Clockie::pointer_frame`. -/
def pointer_event (outs : List Output) (st : Clockie) (ev : PtrEvent) :
    Clockie × List ConfigWrite :=
  match ev with
  | PtrEvent.press button pos =>
    if button = BTN_LEFT then
      if ¬st.locked then
        ({ st with dragging := true
                   drag_start := pos
                   drag_margins := current_margins st }, [])
      else (st, [])
    else (st, [])
  | PtrEvent.motion pos =>
    if st.dragging then
      let dx := pos.1 - st.drag_start.1
      let dy := pos.2 - st.drag_start.2
      let a := st.anchor
      let w0 := st.config.window
      let w1 :=
        if a.left ∧ ¬a.right then
          { w0 with margin_left := max (st.drag_margins.left + dx) 0 }
        else if a.right ∧ ¬a.left then
          { w0 with margin_right := max (st.drag_margins.right - dx) 0 }
        else w0
      let w2 :=
        if a.top ∧ ¬a.bottom then
          { w1 with margin_top := max (st.drag_margins.top + dy) 0 }
        else if a.bottom ∧ ¬a.top then
          { w1 with margin_bottom := max (st.drag_margins.bottom - dy) 0 }
        else w1
      let sp := st.surface.set_margin w2.margin_top w2.margin_right
        w2.margin_bottom w2.margin_left
      ({ st with config := { st.config with window := w2 }, surface := sp }, [])
    else (st, [])
  | PtrEvent.release button =>
    if button = BTN_LEFT then
      if st.dragging then
        let st1 := { st with dragging := false }
        let cur := current_margins st
        if cur ≠ st.drag_margins then
          (st1, [ConfigWrite.saveMargins cur.top cur.right cur.bottom cur.left])
        else (st1, [])
      else (st, [])
    else (st, [])
  | PtrEvent.leave =>
    if st.dragging then pointer_leave outs st else (st, [])

/-- `Clockie::pointer_frame`: fold a frame's event list through
`pointer_event`, accumulating the config writes in order. -/
def pointer_frame (outs : List Output) (st : Clockie)
    (events : List PtrEvent) : Clockie × List ConfigWrite :=
  events.foldl (fun acc ev =>
    let r := pointer_event outs acc.1 ev
    (r.1, acc.2 ++ r.2)) (st, [])

/-- `src/ipc.rs` `IpcResponse` (the `ok` flag and optional error message;
the get-state payload fields are not needed by the claims). -/
structure IpcResponse where
  ok : Bool
  error : Option String
deriving DecidableEq, Repr

/-- `IpcResponse::ok()`. -/
def IpcResponse.okResp : IpcResponse := { ok := true, error := Option.none }

/-- `IpcResponse::err(msg)`. -/
def IpcResponse.errResp (msg : String) : IpcResponse :=
  { ok := false, error := Option.some msg }

/-- A single-quote character (ASCII 39), as used by the source's
`format!("Output '{}' not found", name)`. -/
def squote : String := String.singleton (Char.ofNat 39)

/-- The exact error message of the `MoveToOutput` arm for an unknown
output name. -/
def output_not_found_msg (name : String) : String :=
  "Output " ++ squote ++ name ++ squote ++ " not found"

/-- The filesystem as seen by `config::load_config`: whether the config
file exists, and the outcome of reading+parsing it when it does
(`toml::from_str` composed with `fs::read_to_string`, as an oracle). -/
structure FsModel where
  fileExists : Bool
  parseResult : Except String ClockConfig

/-- `config::load_config`: when the file is missing, write a freshly
generated default config file and return the built-in defaults (never an
error); otherwise return the read+parse outcome. -/
def load_config (fs : FsModel) : Except String ClockConfig × List ConfigWrite :=
  if fs.fileExists then (fs.parseResult, [])
  else (Except.ok default_clock_config, [ConfigWrite.writeDefaultConfig])

/-- The commands of `src/ipc.rs` `IpcCommand` that mutate the placement
state the claims are about (the size-changing commands act through the
same `update_size` path and differ only in the rasterizer settings they
touch, which live behind the opaque `computeSize`). -/
inductive IpcCommand where
  | setCompact (compact : Bool)
  | toggleCompact
  | setLocked (locked : Bool)
  | toggleLocked
  | moveToOutput (name : String)
  | reloadConfig
deriving DecidableEq, Repr

/-- The target-resolution step of the `MoveToOutput` arm:
`"next"`/`"prev"` cycle through the output list, any other name is an
exact name lookup. -/
def resolve_output_target (outs : List Output) (st : Clockie)
    (name : String) : Option Output :=
  if name = "next" then find_output_cycle outs st.current_output true
  else if name = "prev" then find_output_cycle outs st.current_output false
  else find_output_by_name outs name

/-- The `ReloadConfig` arm of `Clockie::handle_command`: on a load
success, re-parse and apply the file's anchor and margins, install the new
config while carrying the runtime face mode and compact flag forward, and
recompute the size; on failure, report the error and change nothing. -/
def reload_config (outs : List Output)
    (computeSize : ClockConfig → Bool → Nat × Nat) (fs : FsModel)
    (st : Clockie) : Clockie × IpcResponse × List ConfigWrite :=
  match load_config fs with
  | (Except.ok new_config, fx) =>
    let face := st.config.clock.face
    let compact := st.compact
    let anchor := parse_anchor new_config.window.anchor
    let sp0 := { st.surface with anchor := anchor }
    let sp1 := sp0.set_margin new_config.window.margin_top
      new_config.window.margin_right new_config.window.margin_bottom
      new_config.window.margin_left
    let merged :=
      { new_config with clock := { new_config.clock with face := face } }
    let st1 := { st with surface := sp1
                         anchor := anchor
                         config := merged
                         compact := compact }
    let st2 := update_size outs computeSize st1
    (st2, IpcResponse.okResp, fx)
  | (Except.error e, fx) =>
    (st, IpcResponse.errResp ("Config reload failed: " ++ e), fx)

/-- `Clockie::handle_command` (the modelled arms). -/
def handle_command (outs : List Output)
    (computeSize : ClockConfig → Bool → Nat × Nat) (fs : FsModel)
    (st : Clockie) (cmd : IpcCommand) :
    Clockie × IpcResponse × List ConfigWrite :=
  match cmd with
  | IpcCommand.setCompact c =>
    (update_size outs computeSize { st with compact := c },
      IpcResponse.okResp, [])
  | IpcCommand.toggleCompact =>
    (update_size outs computeSize { st with compact := ¬st.compact },
      IpcResponse.okResp, [])
  | IpcCommand.setLocked l => ({ st with locked := l }, IpcResponse.okResp, [])
  | IpcCommand.toggleLocked =>
    ({ st with locked := ¬st.locked }, IpcResponse.okResp, [])
  | IpcCommand.moveToOutput name =>
    match resolve_output_target outs st name with
    | Option.some output =>
      let st1 := recreate_surface st (Option.some output)
      let output_name := (get_output_name outs st1).getD name
      let w := { st1.config.window with output := Option.some output_name }
      ({ st1 with config := { st1.config with window := w } },
        IpcResponse.okResp, [ConfigWrite.saveOutput output_name])
    | Option.none =>
      (st, IpcResponse.errResp (output_not_found_msg name), [])
  | IpcCommand.reloadConfig => reload_config outs computeSize fs st

example : parse_anchor "top right" = ⟨true, false, false, true⟩ := by decide
example : format_anchor ⟨true, false, false, true⟩ = "top right" := by decide
example : parse_layer "overlay" = Layer.overlay := by rfl

/-! ### Concrete fixtures (the §8 scenario topology and states) -/

/-- Output A of the §8 scenario: `{x:0, y:0, w:1920, h:1080}`. -/
def outA : Output :=
  { id := 0, name := Option.some "A"
    logical_position := Option.some (0, 0)
    logical_size := Option.some (1920, 1080) }

/-- Output B of the §8 scenario: `{x:1920, y:0, w:1920, h:1080}`. -/
def outB : Output :=
  { id := 1, name := Option.some "B"
    logical_position := Option.some (1920, 0)
    logical_size := Option.some (1920, 1080) }

/-- The `{top, right}` corner anchor. -/
def anchorTR : Anchor := ⟨true, false, false, true⟩

/-- A window config pinned top-right with 20px margins on the anchored
edges. -/
def winTR : WindowConfig :=
  { layer := "top", anchor := "top right", margin_top := 20, margin_right := 20
    margin_bottom := 0, margin_left := 0, compact := false
    output := Option.some "A" }

/-- The clock config for the scenario states. -/
def cfgTR : ClockConfig := { window := winTR, clock := default_clock_settings }

/-- The committed surface matching `winTR` on output A at size 100×50. -/
def surfTR : SurfaceParams :=
  { output := Option.some 0, layer := Layer.top, anchor := anchorTR
    margin_top := 20, margin_right := 20, margin_bottom := 0, margin_left := 0
    size := (100, 50), exclusive_zone := 0
    keyboard_interactivity := KbInteractivity.none }

/-- An idle (not dragging, unlocked) state on output A. -/
def stIdle : Clockie :=
  { config := cfgTR, width := 100, height := 50
    current_output := Option.some 0, configured := true, needs_redraw := false
    compact := false, locked := false, dragging := false, drag_start := (0, 0)
    drag_margins := ⟨20, 20, 0, 0⟩, anchor := anchorTR, surface := surfTR }

/-- The same state mid-drag, with the press-time snapshot ⟨20, 20, 0, 0⟩
and the press at (50, 25). -/
def stDrag : Clockie :=
  { stIdle with dragging := true, drag_start := (50, 25) }

/-! ### C1 — axis-fit invariant -/

theorem u32_of_i32_of_nonneg {x : Int} (h0 : 0 ≤ x) (h1 : x < 4294967296) :
    u32_of_i32 x = x.toNat := by
  unfold u32_of_i32; omega

theorem i32_of_u32_of_lt {n : Nat} (h : n < 2147483648) :
    i32_of_u32 n = (n : Int) := by
  unfold i32_of_u32; simp [h]

/-- C1 (amended): the clamp routine `Clockie::clamp_margins` establishes
the axis-fit bound `0 ≤ margin ∧ margin + window_size ≤ output_size` on
every axis with a single active anchor edge, whenever the current output's
logical size is known, positive, within `i32` range, and the window fits
within the output on both axes.  (The original claim additionally asserted
the bound after drag motion, which only floors margins at zero — refuted
by `C1_counterexample_motion_violates_fit`.) -/
theorem C1_clamp_margins_axis_fit (outs : List Output) (st : Clockie)
    (cid : Nat) (out : Output) (ow oh : Int)
    (hco : st.current_output = Option.some cid)
    (hinfo : output_info outs cid = Option.some out)
    (hsz : out.logical_size = Option.some (ow, oh))
    (how : 0 < ow) (howB : ow < 2147483648)
    (hoh : 0 < oh) (hohB : oh < 2147483648)
    (hfitw : (st.width : Int) ≤ ow) (hfith : (st.height : Int) ≤ oh) :
    (st.anchor.left ∧ ¬st.anchor.right →
      0 ≤ (clamp_margins outs st).config.window.margin_left ∧
      (clamp_margins outs st).config.window.margin_left + st.width ≤ ow) ∧
    (st.anchor.right ∧ ¬st.anchor.left →
      0 ≤ (clamp_margins outs st).config.window.margin_right ∧
      (clamp_margins outs st).config.window.margin_right + st.width ≤ ow) ∧
    (st.anchor.top ∧ ¬st.anchor.bottom →
      0 ≤ (clamp_margins outs st).config.window.margin_top ∧
      (clamp_margins outs st).config.window.margin_top + st.height ≤ oh) ∧
    (st.anchor.bottom ∧ ¬st.anchor.top →
      0 ≤ (clamp_margins outs st).config.window.margin_bottom ∧
      (clamp_margins outs st).config.window.margin_bottom + st.height ≤ oh) := by
  have hget : (st.current_output.bind (fun id =>
      (output_info outs id).bind (fun o => o.logical_size))).getD (0, 0)
      = (ow, oh) := by
    rw [hco]
    simp [hinfo, hsz]
  have hcw : i32_of_u32 (u32_of_i32 ow - st.width) = ow - (st.width : Int) := by
    rw [u32_of_i32_of_nonneg (by omega) (by omega),
      i32_of_u32_of_lt (by omega)]
    omega
  have hch : i32_of_u32 (u32_of_i32 oh - st.height) = oh - (st.height : Int) := by
    rw [u32_of_i32_of_nonneg (by omega) (by omega),
      i32_of_u32_of_lt (by omega)]
    omega
  simp only [clamp_margins, hget]
  rw [if_neg (by simp; omega)]
  simp only [hcw, hch, rclamp]
  refine ⟨fun hA => ?_, fun hA => ?_, fun hA => ?_, fun hA => ?_⟩ <;>
    split_ifs <;>
    simp_all <;>
    omega

/-- C1 witness: the clamp applied to a state whose `margin_right` has been
dragged far past the output edge restores the bound. -/
theorem C1_clamp_margins_axis_fit_witness :
    let st := { stIdle with
      config := { cfgTR with window := { winTR with margin_right := 5000 } } }
    (st.anchor.right ∧ ¬st.anchor.left →
      0 ≤ (clamp_margins [outA, outB] st).config.window.margin_right ∧
      (clamp_margins [outA, outB] st).config.window.margin_right + st.width
        ≤ 1920) := by
  intro st
  exact (C1_clamp_margins_axis_fit [outA, outB] st 0 outA 1920 1080 rfl
    (by decide) rfl (by decide) (by decide) (by decide) (by decide)
    (by decide) (by decide)).2.1

/-- C1 counterexample: a drag-motion mutation on a reachable state with a
single active anchor edge per axis and known output geometry leaves
`margin_right + width > output_width` — the invariant does not hold after
every mutation. -/
theorem C1_counterexample_motion_violates_fit :
    let st' := (pointer_event [outA, outB] stDrag
      (PtrEvent.motion (-1950, 25))).1
    (st'.anchor.right ∧ ¬st'.anchor.left) ∧
    (st'.anchor.top ∧ ¬st'.anchor.bottom) ∧
    st'.current_output = Option.some 0 ∧
    outA.logical_size = Option.some (1920, 1080) ∧
    st'.config.window.margin_right + st'.width > 1920 := by decide

/-! ### C2 — cross-output migration on pointer-leave -/

/-- The anchor flip on the crossed axis performed by the migration block:
the active edge on direction `d`'s axis is replaced by the opposite edge. -/
def flip_anchor (d : Direction) (a : Anchor) : Anchor :=
  match d with
  | Direction.left => { a with left := false, right := true }
  | Direction.right => { a with right := false, left := true }
  | Direction.up => { a with top := false, bottom := true }
  | Direction.down => { a with bottom := false, top := true }

/-- Both margins on direction `d`'s axis are zero. -/
def axis_margins_zero (d : Direction) (w : WindowConfig) : Prop :=
  match d with
  | Direction.left | Direction.right => w.margin_left = 0 ∧ w.margin_right = 0
  | Direction.up | Direction.down => w.margin_top = 0 ∧ w.margin_bottom = 0

/-- The margins on the axis perpendicular to `d` agree between `w` and
`w'`. -/
def perp_margins_preserved (d : Direction) (w w' : WindowConfig) : Prop :=
  match d with
  | Direction.left | Direction.right =>
    w'.margin_top = w.margin_top ∧ w'.margin_bottom = w.margin_bottom
  | Direction.up | Direction.down =>
    w'.margin_left = w.margin_left ∧ w'.margin_right = w.margin_right

/-- C2: on a pointer-leave that ends a drag, when a migration direction is
selected and an adjacent output is found, the anchor on the crossed axis
flips, that axis's margins become 0, the perpendicular margins are
preserved, and the surface is recreated on the target output carrying the
state's layer, (flipped) anchor, margins and size, a zero exclusive zone
and no keyboard interactivity, with `current_output` now the target and
the configure handshake pending. -/
theorem C2_leave_migration (outs : List Output) (st : Clockie)
    (d : Direction) (target : Output)
    (hdrag : st.dragging = true)
    (hdir : detect_direction st = Option.some d)
    (hadj : find_adjacent_output outs st.current_output d
      = Option.some target) :
    let st' := (pointer_event outs st PtrEvent.leave).1
    st'.anchor = flip_anchor d st.anchor ∧
    axis_margins_zero d st'.config.window ∧
    perp_margins_preserved d st.config.window st'.config.window ∧
    st'.current_output = Option.some target.id ∧
    st'.surface.output = Option.some target.id ∧
    st'.surface.layer = parse_layer st.config.window.layer ∧
    st'.surface.anchor = flip_anchor d st.anchor ∧
    st'.surface.margin_top = st'.config.window.margin_top ∧
    st'.surface.margin_right = st'.config.window.margin_right ∧
    st'.surface.margin_bottom = st'.config.window.margin_bottom ∧
    st'.surface.margin_left = st'.config.window.margin_left ∧
    st'.surface.size = (st.width, st.height) ∧
    st'.surface.exclusive_zone = 0 ∧
    st'.surface.keyboard_interactivity = KbInteractivity.none ∧
    st'.configured = false := by
  have hdir0 : detect_direction { st with dragging := false }
      = Option.some d := hdir
  have hadj0 : find_adjacent_output outs
      ({ st with dragging := false } : Clockie).current_output d
      = Option.some target := hadj
  have hmt : migration_target outs { st with dragging := false }
      = Option.some (d, target) := by
    simp [migration_target, hdir0, hadj0]
  rcases hname : get_output_name outs
      (recreate_surface (apply_migration { st with dragging := false } d)
        (Option.some target)) with _ | name <;>
    cases d <;>
      simp_all [pointer_event, pointer_leave, recreate_surface,
        apply_migration, flip_anchor, axis_margins_zero,
        perp_margins_preserved]

/-- The §8 scenario state: mid-drag on output A with `margin_right`
dragged to 0 from its press-time value 20. -/
def stLeaveC2 : Clockie :=
  { stDrag with config := { cfgTR with window := { winTR with margin_right := 0 } } }

/-- C2 witness: the §8 two-output scenario — leaving on the right edge
ends on B with the right anchor replaced by left, `margin_left` 0, the
vertical margin unchanged, and the surface recreated on B. -/
theorem C2_leave_migration_witness :
    let st' := (pointer_event [outA, outB] stLeaveC2 PtrEvent.leave).1
    st'.anchor = flip_anchor Direction.right stLeaveC2.anchor ∧
    axis_margins_zero Direction.right st'.config.window ∧
    perp_margins_preserved Direction.right stLeaveC2.config.window
      st'.config.window ∧
    st'.current_output = Option.some outB.id ∧
    st'.surface.output = Option.some outB.id ∧
    st'.surface.layer = parse_layer stLeaveC2.config.window.layer ∧
    st'.surface.anchor = flip_anchor Direction.right stLeaveC2.anchor ∧
    st'.surface.margin_top = st'.config.window.margin_top ∧
    st'.surface.margin_right = st'.config.window.margin_right ∧
    st'.surface.margin_bottom = st'.config.window.margin_bottom ∧
    st'.surface.margin_left = st'.config.window.margin_left ∧
    st'.surface.size = (stLeaveC2.width, stLeaveC2.height) ∧
    st'.surface.exclusive_zone = 0 ∧
    st'.surface.keyboard_interactivity = KbInteractivity.none ∧
    st'.configured = false :=
  C2_leave_migration [outA, outB] stLeaveC2 Direction.right outB
    (by decide) (by decide) (by decide)

/-! ### C3 — migration direction selection -/

/-- Direction `d`'s axis has exactly one anchored edge — `d`'s own edge —
and that edge's margin is exactly 0. -/
def edge_at_zero (st : Clockie) (d : Direction) : Prop :=
  match d with
  | Direction.left =>
    st.anchor.left ∧ ¬st.anchor.right ∧ st.config.window.margin_left = 0
  | Direction.right =>
    st.anchor.right ∧ ¬st.anchor.left ∧ st.config.window.margin_right = 0
  | Direction.up =>
    st.anchor.top ∧ ¬st.anchor.bottom ∧ st.config.window.margin_top = 0
  | Direction.down =>
    st.anchor.bottom ∧ ¬st.anchor.top ∧ st.config.window.margin_bottom = 0

instance (st : Clockie) (d : Direction) : Decidable (edge_at_zero st d) := by
  unfold edge_at_zero
  cases d <;> infer_instance

/-- The press-time snapshot margin on direction `d`'s edge. -/
def press_margin (st : Clockie) (d : Direction) : Int :=
  match d with
  | Direction.left => st.drag_margins.left
  | Direction.right => st.drag_margins.right
  | Direction.up => st.drag_margins.top
  | Direction.down => st.drag_margins.bottom

/-- The claim's selection predicate, formalised from the spec's words:
single anchored edge on the axis, margin now exactly 0, and the press-time
margin was either positive or already zero. -/
def claim_C3_predicate (st : Clockie) (d : Direction) : Prop :=
  edge_at_zero st d ∧ (press_margin st d > 0 ∨ press_margin st d = 0)

/-- C3 (amended): at most one direction is chosen per leave event (the
detector returns an `Option`); a chosen direction always has a single
anchored edge on its axis whose margin is exactly 0; and some direction is
chosen iff some direction satisfies that condition.  (The claimed
*iff per direction* fails: the chain prioritises Left, Right, Up, Down, so
a qualifying direction can lose to an earlier one — see
`C3_counterexample_priority`; the press-time condition is also immaterial
to whether some migration fires, since the fallback chain ignores it.) -/
theorem C3_direction_selection (st : Clockie) :
    (∀ d : Direction, detect_direction st = Option.some d → edge_at_zero st d) ∧
    ((detect_direction st).isSome ↔
      edge_at_zero st Direction.left ∨ edge_at_zero st Direction.right ∨
      edge_at_zero st Direction.up ∨ edge_at_zero st Direction.down) := by
  constructor
  · intro d hd
    simp only [detect_direction] at hd
    split_ifs at hd <;>
      (injection hd with hd; subst hd; simp_all [edge_at_zero])
  · simp only [detect_direction]
    split_ifs with h1 h2 h3 h4 h5 h6 h7 h8 <;>
      simp_all [edge_at_zero]

/-- C3 counterexample: with anchor `{top, right}`, `margin_right` and
`margin_top` both dragged to 0 from positive press-time values, the
claim's predicate holds for direction Up, yet the detector chooses Right —
"chosen if and only if" fails in the "if" direction. -/
theorem C3_counterexample_priority :
    let st := { stDrag with config :=
      { cfgTR with window := { winTR with margin_right := 0, margin_top := 0 } } }
    claim_C3_predicate st Direction.up ∧
    detect_direction st = Option.some Direction.right ∧
    detect_direction st ≠ Option.some Direction.up := by
  constructor
  · exact ⟨⟨rfl, by decide, rfl⟩, Or.inl (by decide)⟩
  · exact ⟨by decide, by decide⟩

/-! ### C4 / C5 — config reload reconciliation -/

/-- C4 (amended): after a successful reload whose recomputed content size
equals the current size, the in-memory anchor and all four margins equal
the values parsed from the file, while face mode, compact flag and locked
flag keep their pre-reload runtime values.  (Unconditionally the claim
fails: when the recomputed size differs, `update_size` additionally clamps
the freshly loaded margins to the output — see
`C4_counterexample_clamped_margins`.) -/
theorem C4_reload_merges_geometry_keeps_runtime (outs : List Output)
    (computeSize : ClockConfig → Bool → Nat × Nat) (fs : FsModel)
    (st : Clockie) (new_config : ClockConfig) (fx : List ConfigWrite)
    (hload : load_config fs = (Except.ok new_config, fx))
    (hsize : computeSize
      { new_config with clock := { new_config.clock with face := st.config.clock.face } }
      st.compact = (st.width, st.height)) :
    let r := reload_config outs computeSize fs st
    r.2.1.ok = true ∧
    r.1.anchor = parse_anchor new_config.window.anchor ∧
    current_margins r.1 = ⟨new_config.window.margin_top,
      new_config.window.margin_right, new_config.window.margin_bottom,
      new_config.window.margin_left⟩ ∧
    r.1.config.clock.face = st.config.clock.face ∧
    r.1.compact = st.compact ∧
    r.1.locked = st.locked := by
  simp [reload_config, hload, update_size, hsize, current_margins,
    IpcResponse.okResp]

/-- A parseable config file whose contents differ from the runtime state:
bottom-left anchor, margins (1, 2, 3, 4), analogue face, compact true. -/
def cfgFileC4 : ClockConfig :=
  { window := { layer := "top", anchor := "bottom left", margin_top := 1
                margin_right := 2, margin_bottom := 3, margin_left := 4
                compact := true, output := Option.none }
    clock := { face := FaceMode.analogue, font := "monospace" } }

/-- C4 witness: reloading `cfgFileC4` over `stIdle` (digital face, compact
false, unlocked) with an unchanged content size yields the file's anchor
and margins but keeps the runtime face/compact/locked values. -/
theorem C4_reload_merges_geometry_keeps_runtime_witness :
    let r := reload_config [outA] (fun _ _ => (100, 50))
      ⟨true, Except.ok cfgFileC4⟩ stIdle
    r.2.1.ok = true ∧
    r.1.anchor = parse_anchor cfgFileC4.window.anchor ∧
    current_margins r.1 = ⟨cfgFileC4.window.margin_top,
      cfgFileC4.window.margin_right, cfgFileC4.window.margin_bottom,
      cfgFileC4.window.margin_left⟩ ∧
    r.1.config.clock.face = stIdle.config.clock.face ∧
    r.1.compact = stIdle.compact ∧
    r.1.locked = stIdle.locked :=
  C4_reload_merges_geometry_keeps_runtime [outA] (fun _ _ => (100, 50))
    ⟨true, Except.ok cfgFileC4⟩ stIdle cfgFileC4 [] rfl rfl

/-- A parseable config whose `margin_right` (5000) exceeds what fits on
output A. -/
def cfgWideC4 : ClockConfig :=
  { window := { layer := "top", anchor := "top right", margin_top := 10
                margin_right := 5000, margin_bottom := 0, margin_left := 0
                compact := false, output := Option.none }
    clock := default_clock_settings }

/-- C4 counterexample: a successful reload whose recomputed size differs
from the current one clamps the file's `margin_right` 5000 down to 1840
(= 1920 − 80), so the post-reload margins do not equal the values parsed
from the file. -/
theorem C4_counterexample_clamped_margins :
    let r := reload_config [outA] (fun _ _ => (80, 40))
      ⟨true, Except.ok cfgWideC4⟩ stIdle
    r.2.1.ok = true ∧
    cfgWideC4.window.margin_right = 5000 ∧
    r.1.config.window.margin_right = 1840 ∧
    r.1.config.window.margin_right ≠ cfgWideC4.window.margin_right := by
  decide

/-- C5: if reading or parsing the configuration file fails during
reload-config, the command returns `ok := false` with an error message and
the entire state record is returned unchanged — no partial application. -/
theorem C5_reload_failure_no_partial_application (outs : List Output)
    (computeSize : ClockConfig → Bool → Nat × Nat) (st : Clockie)
    (e : String) :
    reload_config outs computeSize ⟨true, Except.error e⟩ st =
      (st, IpcResponse.errResp ("Config reload failed: " ++ e), []) := by
  simp [reload_config, load_config]

/-! ### C6 — adjacency symmetry -/

/-- Right-adjacency of `o` to `c` is the same condition as left-adjacency
of `c` to `o` (edges touch, vertical spans overlap). -/
theorem adjacent_right_symm {ax ay aw ah bx b_y bw bh : Int}
    (h : adjacent_in Direction.right ax ay aw ah bx b_y bw bh = true) :
    adjacent_in Direction.left bx b_y bw bh ax ay aw ah = true := by
  simp only [adjacent_in, decide_eq_true_eq] at h ⊢
  omega

/-- C6 (amended): in a two-output topology (distinct handles), if
`find_adjacent_output` maps A Rightwards to B then it maps B Leftwards
back to A.  (With a third output the cross-axis-distance tie-break can
send B Leftwards to the third output instead — see
`C6_counterexample_three_outputs` — so the claimed symmetry over arbitrary
topologies fails.) -/
theorem C6_adjacency_symmetric_two_outputs (A B : Output)
    (hid : A.id ≠ B.id)
    (h : find_adjacent_output [A, B] (Option.some A.id) Direction.right
      = Option.some B) :
    find_adjacent_output [A, B] (Option.some B.id) Direction.left
      = Option.some A := by
  have hAA : (A.id == A.id) = true := by simp
  have hBB : (B.id == B.id) = true := by simp
  have hAB : (A.id == B.id) = false := by simp [hid]
  have hBA : (B.id == A.id) = false := by
    simp only [beq_eq_false_iff_ne, ne_eq]
    exact fun hc => hid hc.symm
  simp [find_adjacent_output, output_info, List.find?, hAA, hBB, hAB,
    hBA, List.foldl] at h ⊢
  exact adjacent_right_symm h

/-- C6 witness: the §8 two-output topology is symmetric: A → Right → B
and B → Left → A. -/
theorem C6_adjacency_symmetric_two_outputs_witness :
    find_adjacent_output [outA, outB] (Option.some outB.id) Direction.left
      = Option.some outA :=
  C6_adjacency_symmetric_two_outputs outA outB (by decide) (by decide)

/-- A 100×100 output at the origin. -/
def oC6A : Output :=
  { id := 0, name := Option.none, logical_position := Option.some (0, 0)
    logical_size := Option.some (100, 100) }

/-- A 100×300 output touching `oC6A`'s right edge. -/
def oC6B : Output :=
  { id := 1, name := Option.none, logical_position := Option.some (100, 0)
    logical_size := Option.some (100, 300) }

/-- A 100×100 output below `oC6A`, also touching `oC6B`'s left edge and
vertically closer to `oC6B`'s center. -/
def oC6C : Output :=
  { id := 2, name := Option.none, logical_position := Option.some (0, 100)
    logical_size := Option.some (100, 100) }

/-- C6 counterexample: with three outputs, `find_adjacent(A, Right) = B`
but `find_adjacent(B, Left) = C ≠ A` — the center-distance tie-break
breaks the claimed symmetry. -/
theorem C6_counterexample_three_outputs :
    find_adjacent_output [oC6A, oC6B, oC6C] (Option.some 0) Direction.right
      = Option.some oC6B ∧
    find_adjacent_output [oC6A, oC6B, oC6C] (Option.some 1) Direction.left
      = Option.some oC6C ∧
    find_adjacent_output [oC6A, oC6B, oC6C] (Option.some 1) Direction.left
      ≠ Option.some oC6A := by decide

/-! ### C7 — no config write when margins match the press-time snapshot -/

/-- C7 (amended): a drag ended by button release with margins equal to the
press-time snapshot writes nothing; a drag ended by pointer-leave with
margins equal to the snapshot writes nothing **provided no migration
fires** — a migrating leave persists margins unconditionally
(`moved || current != drag_margins` in the source; see
`C7_counterexample_migration_writes`). -/
theorem C7_no_write_when_margins_unchanged (outs : List Output) (st : Clockie)
    (hdrag : st.dragging = true)
    (heq : current_margins st = st.drag_margins)
    (hmig : migration_target outs { st with dragging := false }
      = Option.none) :
    (pointer_event outs st (PtrEvent.release BTN_LEFT)).2 = [] ∧
    (pointer_event outs st PtrEvent.leave).2 = [] := by
  have h1 : st.config.window.margin_top = st.drag_margins.top :=
    congrArg Margins.top heq
  have h2 : st.config.window.margin_right = st.drag_margins.right :=
    congrArg Margins.right heq
  have h3 : st.config.window.margin_bottom = st.drag_margins.bottom :=
    congrArg Margins.bottom heq
  have h4 : st.config.window.margin_left = st.drag_margins.left :=
    congrArg Margins.left heq
  constructor
  · simp [pointer_event, hdrag, current_margins, h1, h2, h3, h4]
  · simp [pointer_event, pointer_leave, hdrag, hmig, current_margins,
      h1, h2, h3, h4]

/-- C7 witness: the drag of `stDrag` ends (by release or by leave) with
margins still at the press-time snapshot ⟨20, 20, 0, 0⟩ and no adjacent
migration fires, so no config write is issued. -/
theorem C7_no_write_when_margins_unchanged_witness :
    (pointer_event [outA, outB] stDrag (PtrEvent.release BTN_LEFT)).2 = [] ∧
    (pointer_event [outA, outB] stDrag PtrEvent.leave).2 = [] :=
  C7_no_write_when_margins_unchanged [outA, outB] stDrag (by decide)
    (by decide) (by decide)

/-- A drag that started flush against the right edge (`margin_right` 0 at
press and still 0) with margins identical to the snapshot. -/
def stC7 : Clockie :=
  { stDrag with
    config := { cfgTR with window :=
      { winTR with margin_top := 5, margin_right := 0 } }
    drag_margins := ⟨5, 0, 0, 0⟩ }

/-- C7 counterexample: this drag ends by pointer-leave with all four
margins equal to the press-time snapshot, yet the leave migrates to B and
writes the margins (and the output) to the config file. -/
theorem C7_counterexample_migration_writes :
    current_margins stC7 = stC7.drag_margins ∧
    current_margins (pointer_event [outA, outB] stC7 PtrEvent.leave).1
      = stC7.drag_margins ∧
    (pointer_event [outA, outB] stC7 PtrEvent.leave).2 =
      [ConfigWrite.saveMargins 5 0 0 0, ConfigWrite.saveOutput "B"] := by
  decide

/-! ### C8 — locked blocks drag creation -/

/-- Motion events are no-ops on the fold of `pointer_frame` while no drag
is in progress. -/
theorem pointer_frame_motions_no_drag (outs : List Output)
    (moves : List (Int × Int)) :
    ∀ acc : Clockie × List ConfigWrite, acc.1.dragging = false →
      List.foldl (fun acc ev =>
        let r := pointer_event outs acc.1 ev
        (r.1, acc.2 ++ r.2)) acc (moves.map PtrEvent.motion) = acc := by
  induction moves with
  | nil => intro acc _; rfl
  | cons m ms ih =>
    intro acc hacc
    simp only [List.map_cons, List.foldl_cons]
    have hstep : pointer_event outs acc.1 (PtrEvent.motion m) = (acc.1, []) := by
      simp [pointer_event, hacc]
    simp only [hstep, List.append_nil]
    exact ih acc hacc

/-- C8: with the locked flag set and no drag in progress, a left-button
press followed by any sequence of motion events leaves the entire state —
margins included — unchanged and produces no config writes (no drag
session is ever created). -/
theorem C8_locked_press_no_drag (outs : List Output) (st : Clockie)
    (pos : Int × Int) (moves : List (Int × Int))
    (hlock : st.locked = true) (hidle : st.dragging = false) :
    pointer_frame outs st
      (PtrEvent.press BTN_LEFT pos :: moves.map PtrEvent.motion) = (st, []) := by
  have hpress : pointer_event outs st (PtrEvent.press BTN_LEFT pos)
      = (st, []) := by
    simp [pointer_event, hlock]
  simp only [pointer_frame, List.foldl_cons, hpress, List.nil_append]
  exact pointer_frame_motions_no_drag outs moves (st, []) hidle

/-- C8 witness: `set-locked true` on the idle scenario state, then a press
and two motions: nothing changes. -/
theorem C8_locked_press_no_drag_witness :
    pointer_frame [outA, outB]
      (handle_command [outA, outB] (fun _ _ => (100, 50))
        ⟨true, Except.ok cfgTR⟩ stIdle (IpcCommand.setLocked true)).1
      (PtrEvent.press BTN_LEFT (10, 10) ::
        [((50 : Int), (60 : Int)), (-200, 300)].map PtrEvent.motion) =
      ((handle_command [outA, outB] (fun _ _ => (100, 50))
        ⟨true, Except.ok cfgTR⟩ stIdle (IpcCommand.setLocked true)).1, []) :=
  C8_locked_press_no_drag [outA, outB] _ (10, 10) [(50, 60), (-200, 300)]
    (by decide) (by decide)

/-! ### C9 — move-to-output with an unknown name -/

/-- C9: when the requested name resolves to no output, `move-to-output`
returns `ok := false` with exactly `Output '<name>' not found` and leaves
the state (and the config, and the effect list) untouched; `"next"` and
`"prev"` resolve to no output whenever fewer than two outputs exist. -/
theorem C9_move_to_output_unknown_name (outs : List Output)
    (computeSize : ClockConfig → Bool → Nat × Nat) (fs : FsModel)
    (st : Clockie) (name : String)
    (h : resolve_output_target outs st name = Option.none) :
    handle_command outs computeSize fs st (IpcCommand.moveToOutput name) =
      (st, IpcResponse.errResp (output_not_found_msg name), []) ∧
    (outs.length < 2 →
      resolve_output_target outs st "next" = Option.none ∧
      resolve_output_target outs st "prev" = Option.none) := by
  constructor
  · simp [handle_command, h]
  · intro hlen
    constructor <;>
      simp [resolve_output_target, find_output_cycle, Nat.le_of_lt_succ hlen]

/-- C9 witness: the §8 scenario — `move-to-output DP-2` with no output of
that name returns `{ok: false, error: "Output 'DP-2' not found"}` and the
state is unchanged; with the single output A, `"next"`/`"prev"` resolve to
nothing. -/
theorem C9_move_to_output_unknown_name_witness :
    handle_command [outA] (fun _ _ => (100, 50)) ⟨true, Except.ok cfgTR⟩
      stIdle (IpcCommand.moveToOutput "DP-2") =
      (stIdle, IpcResponse.errResp (output_not_found_msg "DP-2"), []) ∧
    ([outA].length < 2 →
      resolve_output_target [outA] stIdle "next" = Option.none ∧
      resolve_output_target [outA] stIdle "prev" = Option.none) :=
  C9_move_to_output_unknown_name [outA] (fun _ _ => (100, 50))
    ⟨true, Except.ok cfgTR⟩ stIdle "DP-2" (by decide)

/-! ### C10 — missing config file on reload -/

/-- C10 (amended): when the file does not exist, `load_config` returns the
built-in defaults together with a default-config-file write (never an
error), and a `reload-config` in that situation responds ok and installs
the default anchor `{top, right}`; the default margins ⟨20, 20, 0, 0⟩ are
installed as-is whenever the recomputed content size is unchanged.  (When
the size changes, `update_size` additionally clamps the installed defaults
to the current output, so on an output narrower than the new width + 20
the in-memory margins differ from the defaults — see
`C10_counterexample_narrow_output_clamps_defaults`, which refutes the
original claim's unconditional "replaces anchor and margins with the
defaults".) -/
theorem C10_missing_file_reload_defaults (outs : List Output)
    (computeSize : ClockConfig → Bool → Nat × Nat) (st : Clockie)
    (fs : FsModel)
    (hmiss : fs.fileExists = false)
    (hsize : computeSize
      { default_clock_config with clock :=
        { default_clock_settings with face := st.config.clock.face } }
      st.compact = (st.width, st.height)) :
    load_config fs =
      (Except.ok default_clock_config, [ConfigWrite.writeDefaultConfig]) ∧
    (reload_config outs computeSize fs st).2.1.ok = true ∧
    (reload_config outs computeSize fs st).1.anchor
      = ⟨true, false, false, true⟩ ∧
    current_margins (reload_config outs computeSize fs st).1
      = ⟨20, 20, 0, 0⟩ := by
  have hload : load_config fs =
      (Except.ok default_clock_config, [ConfigWrite.writeDefaultConfig]) := by
    simp [load_config, hmiss]
  have hparse : parse_anchor "top right" = ⟨true, false, false, true⟩ := by
    decide
  refine ⟨hload, ?_⟩
  simp only [default_clock_config, default_window_config,
    default_clock_settings] at hsize
  simp [reload_config, hload, update_size, hsize, current_margins,
    IpcResponse.okResp, hparse, default_clock_config, default_window_config,
    default_clock_settings]

/-- C10 witness: deleting the config file and issuing `reload-config` over
the scenario state responds ok with default geometry installed. -/
theorem C10_missing_file_reload_defaults_witness :
    load_config ⟨false, Except.error "unused"⟩ =
      (Except.ok default_clock_config, [ConfigWrite.writeDefaultConfig]) ∧
    (reload_config [outA] (fun _ _ => (100, 50))
      ⟨false, Except.error "unused"⟩ stIdle).2.1.ok = true ∧
    (reload_config [outA] (fun _ _ => (100, 50))
      ⟨false, Except.error "unused"⟩ stIdle).1.anchor
      = ⟨true, false, false, true⟩ ∧
    current_margins (reload_config [outA] (fun _ _ => (100, 50))
      ⟨false, Except.error "unused"⟩ stIdle).1 = ⟨20, 20, 0, 0⟩ :=
  C10_missing_file_reload_defaults [outA] (fun _ _ => (100, 50)) stIdle
    ⟨false, Except.error "unused"⟩ rfl rfl

/-- A 100px-wide output: narrower than the reloaded window width (90)
plus the default 20px `margin_right`. -/
def outNarrowC10 : Output :=
  { id := 0, name := Option.some "N"
    logical_position := Option.some (0, 0)
    logical_size := Option.some (100, 1080) }

/-- C10 counterexample: a missing-file reload whose recomputed content
size changes (100×50 → 90×40) on a 100px-wide output still responds ok,
but the installed `margin_right` is the clamp result 10 (= 100 − 90), not
the default 20 — the margins are not replaced with the defaults. -/
theorem C10_counterexample_narrow_output_clamps_defaults :
    load_config ⟨false, Except.error "unused"⟩ =
      (Except.ok default_clock_config, [ConfigWrite.writeDefaultConfig]) ∧
    (reload_config [outNarrowC10] (fun _ _ => (90, 40))
      ⟨false, Except.error "unused"⟩ stIdle).2.1.ok = true ∧
    default_clock_config.window.margin_right = 20 ∧
    (reload_config [outNarrowC10] (fun _ _ => (90, 40))
      ⟨false, Except.error "unused"⟩ stIdle).1.config.window.margin_right
      = 10 ∧
    (reload_config [outNarrowC10] (fun _ _ => (90, 40))
      ⟨false, Except.error "unused"⟩ stIdle).1.config.window.margin_right
      ≠ default_clock_config.window.margin_right := by
  refine ⟨rfl, ?_, ?_, ?_, ?_⟩ <;> decide
